import Mathlib

/-!
Verification of the fv_extractor invoice-extraction core: a shallow
embedding of its validators (`src/utils/validators.py`), document
normalizer (`src/processors/image_processor.py`), data model
(`src/models/invoice_data.py`, `src/models/invoice_item.py`) and tabular
exporter (`src/exporters/excel_exporter.py`), with theorems settling the
specification's claims about them.

Python strings are modelled as `List Char`; Python `float` money/quantity
fields as `ℚ`; fallible functions return `Except`.
-/

namespace FvExtractor

instance {ε α : Type} [DecidableEq ε] [DecidableEq α] :
    DecidableEq (Except ε α)
  | .error a, .error b =>
    if h : a = b then isTrue (by rw [h])
    else isFalse (by intro he; cases he; exact h rfl)
  | .error _, .ok _ => isFalse (by intro h; cases h)
  | .ok _, .error _ => isFalse (by intro h; cases h)
  | .ok a, .ok b =>
    if h : a = b then isTrue (by rw [h])
    else isFalse (by intro he; cases he; exact h rfl)

/-! ## Character classes -/

/-- Whitespace as stripped by Python's `str.strip()` (no arguments).
Python strips characters for which `str.isspace()` holds; this model
covers the ASCII whitespace characters, which are the ones the
repository's inputs and the spec's examples exercise. -/
def isPySpace (c : Char) : Bool :=
  c = ' ' || c = '\t' || c = '\n' || c = '\r' || c = '\x0b' || c = '\x0c'

/-- Decimal-digit characters as matched by Python's regex `\d` (and
complemented by `\D`).  In Python 3, `re` patterns over `str` are
Unicode-aware by default: `\d` matches every character of Unicode
category Nd, not only ASCII `0`-`9`.  Modelled here over ASCII plus the
most common non-ASCII decimal-digit blocks (Arabic-Indic, Extended
Arabic-Indic, Devanagari, Bengali, Thai, fullwidth). -/
def isPyDigit (c : Char) : Bool :=
  (0x30 ≤ c.toNat && c.toNat ≤ 0x39) ||       -- ASCII 0-9
  (0x660 ≤ c.toNat && c.toNat ≤ 0x669) ||     -- Arabic-Indic
  (0x6F0 ≤ c.toNat && c.toNat ≤ 0x6F9) ||     -- Extended Arabic-Indic
  (0x966 ≤ c.toNat && c.toNat ≤ 0x96F) ||     -- Devanagari
  (0x9E6 ≤ c.toNat && c.toNat ≤ 0x9EF) ||     -- Bengali
  (0xE50 ≤ c.toNat && c.toNat ≤ 0xE59) ||     -- Thai
  (0xFF10 ≤ c.toNat && c.toNat ≤ 0xFF19)      -- fullwidth

/-- ASCII decimal digit `0`-`9`. -/
def isAsciiDigit (c : Char) : Bool :=
  0x30 ≤ c.toNat && c.toNat ≤ 0x39

/-! ## Validator error type

`validators.py` raises `ValueError` for every failure; the constructors
record which check raised and its payload. -/

inductive ValidatorError
  /-- `normalize_nip`: the digit-only projection did not have 10
  characters; carries the length actually found. -/
  | invalidTaxId (got : Nat)
  /-- `parse_polish_date`: no supported format matched. -/
  | invalidDate
  /-- `normalize_invoice_number`: the normalized string was empty. -/
  | emptyDocumentNumber
deriving DecidableEq, Repr

/-! ## normalize_nip (validators.py lines 7-35) -/

/-- `normalize_nip`: `re.sub(r'\D', '', nip)` keeps exactly the digit
characters; succeed iff exactly 10 remain (else `ValueError` reporting
the count found). -/
def normalize_nip (nip : List Char) : Except ValidatorError (List Char) :=
  if (nip.filter isPyDigit).length = 10 then .ok (nip.filter isPyDigit)
  else .error (.invalidTaxId (nip.filter isPyDigit).length)

/-! ## normalize_invoice_number (validators.py lines 87-113) -/

/-- Python `str.replace(' ', '')`: remove every ASCII space character
(U+0020 only — no other whitespace). -/
def removeSpaces (s : List Char) : List Char :=
  s.filter (fun c => !(c = ' '))

/-- Python `str.strip()`: drop whitespace from both ends. -/
def pyStrip (s : List Char) : List Char :=
  ((s.dropWhile isPySpace).reverse.dropWhile isPySpace).reverse

/-- `normalize_invoice_number`: `invoice_num.replace(' ', '').strip()`,
then fail with `ValueError` if the result is empty. -/
def normalize_invoice_number (invoice_num : List Char) :
    Except ValidatorError (List Char) :=
  if (pyStrip (removeSpaces invoice_num)).isEmpty then .error .emptyDocumentNumber
  else .ok (pyStrip (removeSpaces invoice_num))

/-! ## parse_polish_date (validators.py lines 38-84)

The function takes `Union[str, date]`.  A Python `datetime.date` value —
including a `datetime.datetime`, which is a subclass of `date` — is
modelled by `PyDateObj`; the input union by `DateInput`. -/

/-- A calendar date as held by `datetime.date`. -/
structure PyDate where
  year : Nat
  month : Nat
  day : Nat
deriving DecidableEq, Repr

/-- A Python `datetime.date` instance: either a plain `date` or a
`datetime` (subclass of `date`, also carrying a time of day).
`isinstance(x, date)` holds for both constructors. -/
inductive PyDateObj
  | date (d : PyDate)
  | datetime (d : PyDate) (hour minute second microsecond : Nat)
deriving DecidableEq, Repr

/-- The `Union[str, date]` argument of `parse_polish_date`. -/
inductive DateInput
  | str (s : List Char)
  | obj (d : PyDateObj)
deriving DecidableEq, Repr

/-- Numeric value of an ASCII digit character. -/
def digitVal (c : Char) : Nat := c.toNat - 48

/-- CPython `_strptime` matches `%d` with the regex
`3[01]|[12]\d|0[1-9]|[1-9]` (ordered alternatives): one or two digits,
value 1-31.  Returns the value and the unconsumed input. -/
def matchDay : List Char → Option (Nat × List Char)
  | c1 :: c2 :: rest =>
    if c1 == '3' && (c2 == '0' || c2 == '1') then some (30 + digitVal c2, rest)
    else if (c1 == '1' || c1 == '2') && isAsciiDigit c2 then
      some (10 * digitVal c1 + digitVal c2, rest)
    else if c1 == '0' && ('1' ≤ c2 && c2 ≤ '9') then some (digitVal c2, rest)
    else if isAsciiDigit c1 && c1 != '0' then some (digitVal c1, c2 :: rest)
    else none
  | [c1] => if isAsciiDigit c1 && c1 != '0' then some (digitVal c1, []) else none
  | [] => none

/-- CPython `_strptime` matches `%m` with `1[0-2]|0[1-9]|[1-9]`:
one or two digits, value 1-12. -/
def matchMonth : List Char → Option (Nat × List Char)
  | c1 :: c2 :: rest =>
    if c1 == '1' && (c2 == '0' || c2 == '1' || c2 == '2') then
      some (10 + digitVal c2, rest)
    else if c1 == '0' && ('1' ≤ c2 && c2 ≤ '9') then some (digitVal c2, rest)
    else if isAsciiDigit c1 && c1 != '0' then some (digitVal c1, c2 :: rest)
    else none
  | [c1] => if isAsciiDigit c1 && c1 != '0' then some (digitVal c1, []) else none
  | [] => none

/-- CPython `_strptime` matches `%Y` with `\d\d\d\d`: exactly four
digits. -/
def matchYear : List Char → Option (Nat × List Char)
  | c1 :: c2 :: c3 :: c4 :: rest =>
    if isAsciiDigit c1 && isAsciiDigit c2 && isAsciiDigit c3 && isAsciiDigit c4 then
      some (1000 * digitVal c1 + 100 * digitVal c2 + 10 * digitVal c3 + digitVal c4,
        rest)
    else none
  | _ => none

/-- Match one literal character of the format string. -/
def matchLit (c : Char) : List Char → Option (List Char)
  | c2 :: rest => if c2 == c then some rest else none
  | [] => none

/-- Gregorian leap-year rule used by `datetime`. -/
def isLeapYear (y : Nat) : Bool :=
  y % 4 = 0 && (y % 100 ≠ 0 || y % 400 = 0)

/-- Number of days in a month, as enforced by the `datetime.date`
constructor. -/
def daysInMonth (y m : Nat) : Nat :=
  if m = 2 then (if isLeapYear y then 29 else 28)
  else if m = 4 || m = 6 || m = 9 || m = 11 then 30
  else 31

/-- Validity check performed by the `datetime.date` constructor:
`MINYEAR = 1 ≤ year ≤ MAXYEAR = 9999`, `1 ≤ month ≤ 12`,
`1 ≤ day ≤ days_in_month`.  `strptime` raises `ValueError` (and
`parse_polish_date` falls through to the next format) when it fails. -/
def isValidDate (d : PyDate) : Bool :=
  1 ≤ d.year && d.year ≤ 9999 && 1 ≤ d.month && d.month ≤ 12 &&
  1 ≤ d.day && d.day ≤ daysInMonth d.year d.month

/-- `datetime.strptime(s, "%d" sep "%m" sep "%Y").date()`: the whole
input must be consumed and the resulting date must be constructible. -/
def strptimeDMY (sep : Char) (s : List Char) : Option PyDate :=
  match matchDay s with
  | none => none
  | some (d, r1) =>
    match matchLit sep r1 with
    | none => none
    | some r2 =>
      match matchMonth r2 with
      | none => none
      | some (m, r3) =>
        match matchLit sep r3 with
        | none => none
        | some r4 =>
          match matchYear r4 with
          | none => none
          | some (y, r5) =>
            if r5 = [] then
              if isValidDate ⟨y, m, d⟩ then some ⟨y, m, d⟩ else none
            else none

/-- `datetime.strptime(s, "%Y-%m-%d").date()`. -/
def strptimeYMD (s : List Char) : Option PyDate :=
  match matchYear s with
  | none => none
  | some (y, r1) =>
    match matchLit '-' r1 with
    | none => none
    | some r2 =>
      match matchMonth r2 with
      | none => none
      | some (m, r3) =>
        match matchLit '-' r3 with
        | none => none
        | some r4 =>
          match matchDay r4 with
          | none => none
          | some (d, r5) =>
            if r5 = [] then
              if isValidDate ⟨y, m, d⟩ then some ⟨y, m, d⟩ else none
            else none

/-- `parse_polish_date`: pass a `date` instance through unchanged;
otherwise try the formats `%d.%m.%Y`, `%d/%m/%Y`, `%Y-%m-%d` in that
order, first success wins; raise `ValueError` if none matches. -/
def parse_polish_date : DateInput → Except ValidatorError PyDateObj
  | .obj d => .ok d
  | .str s =>
    match strptimeDMY '.' s with
    | some d => .ok (.date d)
    | none =>
      match strptimeDMY '/' s with
      | some d => .ok (.date d)
      | none =>
        match strptimeYMD s with
        | some d => .ok (.date d)
        | none => .error .invalidDate

/-! ### Canonical renderings of the three supported formats

These are the spec's "three supported string renderings" of a calendar
date: the zero-padded forms `DD.MM.YYYY`, `DD/MM/YYYY` and the ISO form
`YYYY-MM-DD` produced by `date.isoformat()`. -/

/-- The ASCII digit character for `n < 10`. -/
def digitChar (n : Nat) : Char := Char.ofNat (48 + n)

/-- Two-digit zero-padded decimal rendering (`%02d`). -/
def pad2 (n : Nat) : List Char := [digitChar (n / 10), digitChar (n % 10)]

/-- Four-digit zero-padded decimal rendering (`%04d`). -/
def pad4 (n : Nat) : List Char :=
  [digitChar (n / 1000), digitChar (n / 100 % 10), digitChar (n / 10 % 10),
    digitChar (n % 10)]

/-- `DD.MM.YYYY` rendering. -/
def renderDot (d : PyDate) : List Char :=
  pad2 d.day ++ '.' :: (pad2 d.month ++ '.' :: pad4 d.year)

/-- `DD/MM/YYYY` rendering. -/
def renderSlash (d : PyDate) : List Char :=
  pad2 d.day ++ '/' :: (pad2 d.month ++ '/' :: pad4 d.year)

/-- `YYYY-MM-DD` rendering, i.e. `date.isoformat()`. -/
def renderISO (d : PyDate) : List Char :=
  pad4 d.year ++ '-' :: (pad2 d.month ++ '-' :: pad2 d.day)

/-! ## Data model (models/invoice_item.py, models/invoice_data.py)

Pydantic `BaseModel` construction is modelled by explicit `mk…`
functions that run the declared `Field` constraints and
`field_validator`s and either return the validated record or the first
validation failure.  Python `float` money/quantity fields are modelled
as `ℚ`, the `int` VAT rate as `ℤ`. -/

/-- A single validated invoice line item. -/
structure InvoiceItem where
  description : List Char
  quantity : ℚ
  unit_price_net : ℚ
  vat_rate : ℤ
  total_gross : ℚ
  category : Option (List Char)
deriving DecidableEq, Repr

/-- Pydantic validation failure (`ValidationError`): which field failed
and why. -/
inductive SchemaError
  /-- a `field_validator` raised `ValueError` -/
  | validatorFailed (field : String) (e : ValidatorError)
  /-- a `Field(min_length=…)` constraint failed -/
  | minLengthViolation (field : String)
  /-- a `Field(gt=…, ge=…, le=…)` numeric bound failed -/
  | rangeViolation (field : String)
deriving DecidableEq, Repr

/-- Construction of `InvoiceItem`: `description` non-empty after a
whitespace strip (validator returns `v.strip()`), `quantity > 0`,
`unit_price_net ≥ 0`, `0 ≤ vat_rate ≤ 100`, `total_gross ≥ 0`,
`category` optional and unconstrained. -/
def mkInvoiceItem (description : List Char) (quantity unit_price_net : ℚ)
    (vat_rate : ℤ) (total_gross : ℚ) (category : Option (List Char)) :
    Except SchemaError InvoiceItem :=
  if (pyStrip description).isEmpty then .error (.validatorFailed "description" .emptyDocumentNumber)
  else if quantity ≤ 0 then .error (.rangeViolation "quantity")
  else if unit_price_net < 0 then .error (.rangeViolation "unit_price_net")
  else if vat_rate < 0 ∨ 100 < vat_rate then .error (.rangeViolation "vat_rate")
  else if total_gross < 0 then .error (.rangeViolation "total_gross")
  else .ok ⟨pyStrip description, quantity, unit_price_net, vat_rate, total_gross,
    category⟩

/-- The raw keyword arguments of `InvoiceData(**data)`: strings before
normalization, the date as `Union[str, date]`, and `currency` optional
(`None` modelling an omitted keyword, which takes the declared default
`"PLN"`). -/
structure RawInvoiceData where
  invoice_number : List Char
  issue_date : DateInput
  seller_name : List Char
  seller_nip : List Char
  buyer_name : List Char
  items : List InvoiceItem
  total_net_sum : ℚ
  total_gross_sum : ℚ
  currency : Option (List Char)

/-- A validated `InvoiceData` record. -/
structure InvoiceData where
  invoice_number : List Char
  issue_date : PyDateObj
  seller_name : List Char
  seller_nip : List Char
  buyer_name : List Char
  items : List InvoiceItem
  total_net_sum : ℚ
  total_gross_sum : ℚ
  currency : List Char
deriving DecidableEq, Repr

/-- Construction of `InvoiceData`: runs `normalize_invoice_number`,
`parse_polish_date` and `normalize_nip` as the declared
`field_validator`s, checks `min_length=1` on `seller_name`,
`buyer_name` and `items`, and `ge=0` on both totals.  The `currency`
field is declared as `str = Field(default="PLN", description=…)` with
no validator or constraint attached: any string passes through, an
omitted value becomes `"PLN"`. -/
def mkInvoiceData (r : RawInvoiceData) : Except SchemaError InvoiceData :=
  match normalize_invoice_number r.invoice_number with
  | .error e => .error (.validatorFailed "invoice_number" e)
  | .ok num =>
    match parse_polish_date r.issue_date with
    | .error e => .error (.validatorFailed "issue_date" e)
    | .ok dt =>
      if r.seller_name.length < 1 then .error (.minLengthViolation "seller_name")
      else
        match normalize_nip r.seller_nip with
        | .error e => .error (.validatorFailed "seller_nip" e)
        | .ok nip =>
          if r.buyer_name.length < 1 then .error (.minLengthViolation "buyer_name")
          else if r.items.length < 1 then .error (.minLengthViolation "items")
          else if r.total_net_sum < 0 then .error (.rangeViolation "total_net_sum")
          else if r.total_gross_sum < 0 then .error (.rangeViolation "total_gross_sum")
          else .ok ⟨num, dt, r.seller_name, nip, r.buyer_name, r.items,
            r.total_net_sum, r.total_gross_sum, r.currency.getD "PLN".data⟩

/-- The "small enumerated set" of currency codes named by the spec and
by the field's description string `"Currency code (PLN, EUR, USD)"`. -/
def currencyCodes : List (List Char) := ["PLN".data, "EUR".data, "USD".data]

/-! ## Document normalizer (processors/image_processor.py)

A decoded in-memory image is modelled by its dimensions and color
mode.  `_optimize_image`'s JPEG re-encode and base64 step only turn the
final bitmap into bytes, so the model lets the optimized bitmap itself
stand for its encoded payload: the claims observe payload counts and
bitmap dimensions, never the byte contents. -/

/-- A PIL image: pixel dimensions plus color mode. -/
structure Bitmap where
  width : Nat
  height : Nat
  mode : String
deriving DecidableEq, Repr

/-- The three exception classes declared at the top of
`image_processor.py`, each carrying its message. -/
inductive PyError
  | unsupportedFormatError (msg : String)
  | corruptedFileError (msg : String)
  | passwordProtectedPDFError (msg : String)
deriving DecidableEq, Repr

/-- The exception class alone — what a Python `except` clause can
discriminate on. -/
inductive PyErrorClass
  | unsupportedFormat
  | corruptedFile
  | passwordProtectedPDF
deriving DecidableEq, Repr

/-- Class of an exception value. -/
def classOf : PyError → PyErrorClass
  | .unsupportedFormatError _ => .unsupportedFormat
  | .corruptedFileError _ => .corruptedFile
  | .passwordProtectedPDFError _ => .passwordProtectedPDF

/-- `_resize_image`: `new_width = max_size` and
`new_height = int((max_size / width) * height)` when `width > height`,
symmetrically otherwise.  Python's `int()` truncates toward zero; on
these non-negative values that is the floor, i.e. `Nat` division of the
exact product (the code computes in binary floating point; the model
uses the exact rational value, which agrees away from representation
boundaries). -/
def resize_image (img : Bitmap) (max_size : Nat) : Bitmap :=
  if img.height < img.width then
    ⟨max_size, max_size * img.height / img.width, img.mode⟩
  else
    ⟨max_size * img.width / img.height, max_size, img.mode⟩

/-- The color-mode step of `_optimize_image`: any mode other than
`RGB`/`L` (flattening alpha onto white where present) becomes `RGB`;
dimensions never change. -/
def convertToRGB (img : Bitmap) : Bitmap :=
  if img.mode = "RGB" ∨ img.mode = "L" then img else ⟨img.width, img.height, "RGB"⟩

/-- `_optimize_image` up to its JPEG/base64 encode: color-normalize,
then resize only when the larger dimension strictly exceeds
`max_size`. -/
def optimize_image (img : Bitmap) (max_size : Nat) : Bitmap :=
  if max_size < max (convertToRGB img).width (convertToRGB img).height then
    resize_image (convertToRGB img) max_size
  else convertToRGB img

/-- A PyMuPDF document: whether it reports itself encrypted, which
password strings `authenticate` accepts, and the page bitmaps its pages
rasterize to (one per page, in page order; `page_count` is the length
of this list). -/
structure PDFDocument where
  encrypted : Bool
  auth : List Char → Bool
  pages : List Bitmap

/-- The post-authentication part of `_convert_pdf_to_images`: reject a
zero-page document as corrupted, else rasterize every page in order,
forcing each page image to RGB. -/
def pdfPagesOrError (doc : PDFDocument) : Except PyError (List Bitmap) :=
  if doc.pages.length = 0 then .error (.corruptedFileError "PDF file has no pages")
  else .ok (doc.pages.map (fun b => ⟨b.width, b.height, "RGB"⟩))

/-- `_convert_pdf_to_images`: on an encrypted document, try the empty
password first; failing that, raise `PasswordProtectedPDFError` when no
password was supplied, and try the supplied password otherwise, raising
`PasswordProtectedPDFError` (with a different message) when it is
rejected. -/
def convert_pdf_to_images (doc : PDFDocument) (password : Option (List Char)) :
    Except PyError (List Bitmap) :=
  if doc.encrypted then
    if doc.auth [] then pdfPagesOrError doc
    else
      match password with
      | none => .error (.passwordProtectedPDFError
          "PDF is password-protected. Please provide password.")
      | some pw =>
        if doc.auth pw then pdfPagesOrError doc
        else .error (.passwordProtectedPDFError "Invalid password. Please try again.")
  else pdfPagesOrError doc

/-- An uploaded byte buffer, classified by content as
`_detect_file_type` does: the constructor records what the bytes
actually decode to (the decoded image for JPEG/PNG, the document for
PDF, or nothing for text/unknown/empty buffers;  `otherImage` is a
PIL-sniffed format outside the supported set). -/
inductive FileBuffer
  | jpeg (img : Bitmap)
  | png (img : Bitmap)
  | pdf (doc : PDFDocument)
  | textFile
  | unknownBlob
  | otherImage (fmt : String)
  | emptyFile

/-- `_detect_file_type`: an empty buffer raises `CorruptedFileError`;
otherwise the detected format string is returned. -/
def detect_file_type : FileBuffer → Except PyError String
  | .emptyFile => .error (.corruptedFileError "Empty file")
  | .jpeg _ => .ok "jpeg"
  | .png _ => .ok "png"
  | .pdf _ => .ok "pdf"
  | .textFile => .ok "text"
  | .unknownBlob => .ok "unknown"
  | .otherImage fmt => .ok fmt

/-- `prepare_image_for_api`: detect the type, then convert every PDF
page (or the single image) and optimize each bitmap; text buffers are
unsupported, unknown buffers corrupted, any other detected format
unsupported.  One payload per source image or PDF page, in order. -/
def prepare_image_for_api (f : FileBuffer) (max_size jpeg_quality : Nat)
    (password : Option (List Char)) : Except PyError (List Bitmap) :=
  match detect_file_type f with
  | .error e => .error e
  | .ok _ =>
    match f with
    | .pdf doc =>
      match convert_pdf_to_images doc password with
      | .error e => .error e
      | .ok imgs => .ok (imgs.map (fun i => optimize_image i max_size))
    | .jpeg img => .ok [optimize_image img max_size]
    | .png img => .ok [optimize_image img max_size]
    | .textFile => .error (.unsupportedFormatError
        "Text files are not supported. Supported formats: JPEG, PNG")
    | .unknownBlob => .error (.corruptedFileError
        "File appears to be corrupted or is not a valid image format")
    | .otherImage fmt => .error (.unsupportedFormatError
        ("Unsupported file format: " ++ fmt ++ ". Supported formats: JPEG, PNG"))
    | .emptyFile => .error (.corruptedFileError "Empty file")

/-- The inference gateway's local empty-input failure. -/
inductive GatewayError
  | emptyInput
deriving DecidableEq, Repr

/-- The guard at the top of `GrokClient.extract_data`:
`if not images_base64: raise ValueError(…)` — rejected before any
network call. -/
def extract_data_input_gate (images_base64 : List Bitmap) :
    Except GatewayError Unit :=
  if images_base64.isEmpty then .error .emptyInput else .ok ()

/-! ## Tabular export (exporters/excel_exporter.py,
InvoiceData.to_dataframe) -/

/-- A spreadsheet cell value. -/
inductive Cell
  | str (s : List Char)
  | num (q : ℚ)
  | int (z : ℤ)
  | dateCell (d : PyDateObj)
  | blank
deriving DecidableEq, Repr

/-- An optional category becomes a blank cell when absent
(`None` → `NaN` in the dataframe). -/
def categoryCell : Option (List Char) → Cell
  | none => .blank
  | some s => .str s

/-- A pandas dataframe: named columns and rows of cells, one cell per
column. -/
structure Frame where
  columns : List String
  rows : List (List Cell)

/-- The dict insertion order used by `InvoiceData.to_dataframe` (header
fields first, then item fields). -/
def srcColumns : List String :=
  ["invoice_number", "issue_date", "seller_name", "seller_nip", "buyer_name",
   "currency", "total_net_sum", "total_gross_sum",
   "description", "quantity", "unit_price_net", "vat_rate", "total_gross",
   "category"]

/-- One row of `to_dataframe`, in `srcColumns` order. -/
def itemRowSrc (inv : InvoiceData) (it : InvoiceItem) : List Cell :=
  [.str inv.invoice_number, .dateCell inv.issue_date, .str inv.seller_name,
   .str inv.seller_nip, .str inv.buyer_name, .str inv.currency,
   .num inv.total_net_sum, .num inv.total_gross_sum,
   .str it.description, .num it.quantity, .num it.unit_price_net,
   .int it.vat_rate, .num it.total_gross, categoryCell it.category]

/-- `InvoiceData.to_dataframe`: one row per line item, header fields
repeated in every row. -/
def to_dataframe (inv : InvoiceData) : Frame :=
  ⟨srcColumns, inv.items.map (itemRowSrc inv)⟩

/-- The exporter's `column_order` list. -/
def column_order : List String :=
  ["invoice_number", "issue_date", "seller_name", "seller_nip", "buyer_name",
   "description", "quantity", "unit_price_net", "vat_rate", "total_gross",
   "category", "currency", "total_net_sum", "total_gross_sum"]

/-- The exporter's `column_names` mapping to Polish labels. -/
def column_names : List (String × String) :=
  [("invoice_number", "Numer faktury"), ("issue_date", "Data wystawienia"),
   ("seller_name", "Sprzedawca"), ("seller_nip", "NIP sprzedawcy"),
   ("buyer_name", "Nabywca"), ("description", "Opis pozycji"),
   ("quantity", "Ilość"), ("unit_price_net", "Cena jedn. netto"),
   ("vat_rate", "VAT %"), ("total_gross", "Wartość brutto"),
   ("category", "Kategoria"), ("currency", "Waluta"),
   ("total_net_sum", "Suma netto"), ("total_gross_sum", "Suma brutto")]

/-- `df.rename(columns=…)`: look a column up in `column_names`, keep it
unchanged when absent. -/
def renameColumn (c : String) : String :=
  ((column_names.find? (fun kv => kv.1 = c)).map Prod.snd).getD c

/-- Export failure: the exporter's explicit
`ValueError("Invoice must have at least one item")`. -/
inductive ExportError
  | emptyDocument
deriving DecidableEq, Repr

/-- `export_to_excel` up to cell styling: reject an empty item list,
flatten via `to_dataframe`, reselect the columns of `column_order` that
exist (`df[available_columns]`), rename them to Polish labels, and emit
the sheet as a header row of labels followed by one row per item. -/
def export_to_excel (invoice_data : InvoiceData) :
    Except ExportError (List (List Cell)) :=
  if invoice_data.items.isEmpty then .error .emptyDocument
  else
    let df := to_dataframe invoice_data
    let avail := column_order.filter (fun c => df.columns.contains c)
    let selected : Frame :=
      ⟨avail.map renameColumn,
       df.rows.map (fun row => avail.map (fun c => row.getD (df.columns.indexOf c) .blank))⟩
    .ok ((selected.columns.map (fun c => Cell.str c.data)) :: selected.rows)

/-- The column sequence the claim states for each item row: document
number, issue date, seller name, seller tax ID, buyer name, item
description, quantity, unit price, tax rate, line gross total,
category, currency, document net total, document gross total.  Stated
from the spec's words, to be compared with what `export_to_excel`
produces. -/
def claimedExportRow (inv : InvoiceData) (it : InvoiceItem) : List Cell :=
  [.str inv.invoice_number, .dateCell inv.issue_date, .str inv.seller_name,
   .str inv.seller_nip, .str inv.buyer_name, .str it.description,
   .num it.quantity, .num it.unit_price_net, .int it.vat_rate,
   .num it.total_gross, categoryCell it.category, .str inv.currency,
   .num inv.total_net_sum, .num inv.total_gross_sum]

/-- The header labels the export actually writes. -/
def polishHeader : List String :=
  ["Numer faktury", "Data wystawienia", "Sprzedawca", "NIP sprzedawcy",
   "Nabywca", "Opis pozycji", "Ilość", "Cena jedn. netto", "VAT %",
   "Wartość brutto", "Kategoria", "Waluta", "Suma netto", "Suma brutto"]

/-! ## Concrete example values used by witnesses and counterexamples -/

/-- A validated line item. -/
def exampleItem : InvoiceItem :=
  ⟨"Laptop Dell XPS 15".data, 1, 4500, 23, 5535, some "IT".data⟩

/-- A second validated line item, with no category. -/
def exampleItem2 : InvoiceItem :=
  ⟨"Mysz".data, 2, 10, 23, 25, none⟩

/-- A validated two-item invoice. -/
def exampleInvoice : InvoiceData :=
  ⟨"FV001/2025".data, .date ⟨2025, 1, 12⟩, "ACME Corp".data, "1234567890".data,
   "XYZ Solutions".data, [exampleItem, exampleItem2], 4520, 5560, "PLN".data⟩

/-- Raw constructor input whose currency string is outside the
documented set. -/
def exampleRawXYZ : RawInvoiceData :=
  ⟨"FV 001 / 2025".data, .str "2025-01-12".data, "ACME Corp".data,
   "PL 123-456-78-90".data, "XYZ Solutions".data, [exampleItem], 4500, 5535,
   some "XYZ".data⟩

/-- What `mkInvoiceData exampleRawXYZ` constructs. -/
def exampleDataXYZ : InvoiceData :=
  ⟨"FV001/2025".data, .date ⟨2025, 1, 12⟩, "ACME Corp".data, "1234567890".data,
   "XYZ Solutions".data, [exampleItem], 4500, 5535, "XYZ".data⟩

/-- Raw constructor input with the currency keyword omitted. -/
def exampleRawNoCurrency : RawInvoiceData :=
  ⟨"FV 001 / 2025".data, .str "2025-01-12".data, "ACME Corp".data,
   "PL 123-456-78-90".data, "XYZ Solutions".data, [exampleItem], 4500, 5535,
   none⟩

/-- What `mkInvoiceData exampleRawNoCurrency` constructs. -/
def exampleDataPLN : InvoiceData :=
  ⟨"FV001/2025".data, .date ⟨2025, 1, 12⟩, "ACME Corp".data, "1234567890".data,
   "XYZ Solutions".data, [exampleItem], 4500, 5535, "PLN".data⟩

/-- A one-page encrypted PDF accepting only the password `s3cret`. -/
def examplePDF : PDFDocument :=
  ⟨true, fun pw => pw == "s3cret".data, [⟨2480, 3508, "RGB"⟩]⟩

/-! ### Lemmas about the date machinery -/

lemma isAsciiDigit_digitChar (n : Nat) (h : n < 10) :
    isAsciiDigit (digitChar n) = true := by
  interval_cases n <;> decide

lemma digitVal_digitChar (n : Nat) (h : n < 10) : digitVal (digitChar n) = n := by
  interval_cases n <;> decide

lemma matchDay_pad2 (d : Nat) (h1 : 1 ≤ d) (h2 : d ≤ 31) (rest : List Char) :
    matchDay (pad2 d ++ rest) = some (d, rest) := by
  interval_cases d <;> rfl

lemma matchDay_pad2_nil (d : Nat) (h1 : 1 ≤ d) (h2 : d ≤ 31) :
    matchDay (pad2 d) = some (d, []) := by
  have h := matchDay_pad2 d h1 h2 []
  simpa using h

lemma matchMonth_pad2 (m : Nat) (h1 : 1 ≤ m) (h2 : m ≤ 12) (rest : List Char) :
    matchMonth (pad2 m ++ rest) = some (m, rest) := by
  interval_cases m <;> rfl

lemma matchYear_digits (a b c e : Nat) (ha : a < 10) (hb : b < 10) (hc : c < 10)
    (he : e < 10) (rest : List Char) :
    matchYear (digitChar a :: digitChar b :: digitChar c :: digitChar e :: rest) =
      some (1000 * a + 100 * b + 10 * c + e, rest) := by
  simp [matchYear, isAsciiDigit_digitChar _ ha, isAsciiDigit_digitChar _ hb,
    isAsciiDigit_digitChar _ hc, isAsciiDigit_digitChar _ he,
    digitVal_digitChar _ ha, digitVal_digitChar _ hb, digitVal_digitChar _ hc,
    digitVal_digitChar _ he]

lemma matchYear_pad4 (y : Nat) (h : y ≤ 9999) (rest : List Char) :
    matchYear (pad4 y ++ rest) = some (y, rest) := by
  have hc : pad4 y ++ rest =
      digitChar (y / 1000) :: digitChar (y / 100 % 10) :: digitChar (y / 10 % 10) ::
        digitChar (y % 10) :: rest := rfl
  rw [hc, matchYear_digits _ _ _ _ (by omega) (by omega) (by omega) (by omega)]
  have hy : 1000 * (y / 1000) + 100 * (y / 100 % 10) + 10 * (y / 10 % 10) + y % 10
      = y := by omega
  rw [hy]

lemma matchYear_pad4_nil (y : Nat) (h : y ≤ 9999) :
    matchYear (pad4 y) = some (y, []) := by
  have hr := matchYear_pad4 y h []
  simpa using hr

lemma matchLit_cons_self (c : Char) (rest : List Char) :
    matchLit c (c :: rest) = some rest := by
  simp [matchLit]

lemma daysInMonth_le (y m : Nat) : daysInMonth y m ≤ 31 := by
  unfold daysInMonth
  split_ifs <;> omega

lemma isValidDate_bounds (d : PyDate) (h : isValidDate d = true) :
    1 ≤ d.year ∧ d.year ≤ 9999 ∧ 1 ≤ d.month ∧ d.month ≤ 12 ∧
      1 ≤ d.day ∧ d.day ≤ 31 := by
  unfold isValidDate at h
  simp only [Bool.and_eq_true, decide_eq_true_eq] at h
  have hdm := daysInMonth_le d.year d.month
  omega

lemma strptimeDMY_render (sep : Char) (d : PyDate) (h : isValidDate d = true) :
    strptimeDMY sep (pad2 d.day ++ sep :: (pad2 d.month ++ sep :: pad4 d.year)) =
      some d := by
  obtain ⟨hy1, hy2, hm1, hm2, hd1, hd2⟩ := isValidDate_bounds d h
  obtain ⟨y, m, dd⟩ := d
  simp only at hy1 hy2 hm1 hm2 hd1 hd2 h
  simp only [strptimeDMY, matchDay_pad2 dd hd1 hd2, matchLit_cons_self,
    matchMonth_pad2 m hm1 hm2, matchYear_pad4_nil y hy2]
  simp [h]

lemma strptimeYMD_render (d : PyDate) (h : isValidDate d = true) :
    strptimeYMD (renderISO d) = some d := by
  obtain ⟨hy1, hy2, hm1, hm2, hd1, hd2⟩ := isValidDate_bounds d h
  obtain ⟨y, m, dd⟩ := d
  simp only at hy1 hy2 hm1 hm2 hd1 hd2 h
  simp only [strptimeYMD, renderISO, matchYear_pad4 y hy2, matchLit_cons_self,
    matchMonth_pad2 m hm1 hm2, matchDay_pad2_nil dd hd1 hd2]
  simp [h]

lemma matchDay_shape (c1 c2 : Char) (w : List Char) :
    matchDay (c1 :: c2 :: w) = none ∨
    (∃ v, matchDay (c1 :: c2 :: w) = some (v, c2 :: w)) ∨
    (∃ v, matchDay (c1 :: c2 :: w) = some (v, w)) := by
  simp only [matchDay]
  split_ifs
  · exact Or.inr (Or.inr ⟨_, rfl⟩)
  · exact Or.inr (Or.inr ⟨_, rfl⟩)
  · exact Or.inr (Or.inr ⟨_, rfl⟩)
  · exact Or.inr (Or.inl ⟨_, rfl⟩)
  · exact Or.inl rfl

lemma digitChar_beq_false (n : Nat) (h : n < 10) (sep : Char)
    (hsep : isAsciiDigit sep = false) : (digitChar n == sep) = false := by
  cases hbe : (digitChar n == sep) with
  | false => rfl
  | true =>
    exfalso
    have heq : digitChar n = sep := beq_iff_eq.mp hbe
    rw [← heq, isAsciiDigit_digitChar n h] at hsep
    cases hsep

lemma renderISO_cons (d : PyDate) : renderISO d =
    digitChar (d.year / 1000) :: digitChar (d.year / 100 % 10) ::
      digitChar (d.year / 10 % 10) :: digitChar (d.year % 10) :: '-' ::
      (pad2 d.month ++ '-' :: pad2 d.day) := rfl

lemma strptimeDMY_renderISO_none (sep : Char) (hsep : isAsciiDigit sep = false)
    (d : PyDate) (h : isValidDate d = true) :
    strptimeDMY sep (renderISO d) = none := by
  obtain ⟨hy1, hy2, hm1, hm2, hd1, hd2⟩ := isValidDate_bounds d h
  rw [renderISO_cons]
  rcases matchDay_shape (digitChar (d.year / 1000)) (digitChar (d.year / 100 % 10))
      (digitChar (d.year / 10 % 10) :: digitChar (d.year % 10) :: '-' ::
        (pad2 d.month ++ '-' :: pad2 d.day)) with hnone | ⟨v, hv⟩ | ⟨v, hv⟩
  · simp [strptimeDMY, hnone]
  · simp [strptimeDMY, hv, matchLit,
      digitChar_beq_false (d.year / 100 % 10) (by omega) sep hsep]
  · simp [strptimeDMY, hv, matchLit,
      digitChar_beq_false (d.year / 10 % 10) (by omega) sep hsep]

lemma strptimeDMY_sep_mismatch (sep sep2 : Char) (hne : (sep2 == sep) = false)
    (dd : Nat) (h1 : 1 ≤ dd) (h2 : dd ≤ 31) (rest : List Char) :
    strptimeDMY sep (pad2 dd ++ sep2 :: rest) = none := by
  simp [strptimeDMY, matchDay_pad2 dd h1 h2, matchLit, hne]

lemma strptimeDMY_valid (sep : Char) (s : List Char) (d : PyDate)
    (h : strptimeDMY sep s = some d) : isValidDate d = true := by
  unfold strptimeDMY at h
  repeat' split at h
  all_goals simp_all

lemma strptimeYMD_valid (s : List Char) (d : PyDate)
    (h : strptimeYMD s = some d) : isValidDate d = true := by
  unfold strptimeYMD at h
  repeat' split at h
  all_goals simp_all

lemma parse_str_valid (s : List Char) (x : PyDate)
    (h : parse_polish_date (.str s) = .ok (.date x)) : isValidDate x = true := by
  simp only [parse_polish_date] at h
  split at h
  · rename_i d1 h1
    cases h
    exact strptimeDMY_valid '.' s x h1
  · split at h
    · rename_i d1 h1
      cases h
      exact strptimeDMY_valid '/' s x h1
    · split at h
      · rename_i d1 h1
        cases h
        exact strptimeYMD_valid s x h1
      · simp at h

lemma parse_renderDot_ok (d : PyDate) (h : isValidDate d = true) :
    parse_polish_date (.str (renderDot d)) = .ok (.date d) := by
  have hr : renderDot d =
      pad2 d.day ++ '.' :: (pad2 d.month ++ '.' :: pad4 d.year) := rfl
  simp [parse_polish_date, hr, strptimeDMY_render '.' d h]

lemma parse_renderSlash_ok (d : PyDate) (h : isValidDate d = true) :
    parse_polish_date (.str (renderSlash d)) = .ok (.date d) := by
  obtain ⟨hy1, hy2, hm1, hm2, hd1, hd2⟩ := isValidDate_bounds d h
  have hr : renderSlash d =
      pad2 d.day ++ '/' :: (pad2 d.month ++ '/' :: pad4 d.year) := rfl
  simp [parse_polish_date, hr,
    strptimeDMY_sep_mismatch '.' '/' (by decide) d.day hd1 hd2,
    strptimeDMY_render '/' d h]

lemma parse_renderISO_ok (d : PyDate) (h : isValidDate d = true) :
    parse_polish_date (.str (renderISO d)) = .ok (.date d) := by
  simp [parse_polish_date, strptimeDMY_renderISO_none '.' (by decide) d h,
    strptimeDMY_renderISO_none '/' (by decide) d h, strptimeYMD_render d h]

/-! ### Lemmas about `pyStrip` and `removeSpaces` -/

lemma dropWhile_dropWhile (p : Char → Bool) (l : List Char) :
    (l.dropWhile p).dropWhile p = l.dropWhile p := by
  induction l with
  | nil => rfl
  | cons a t ih =>
    by_cases h : p a
    · simp [List.dropWhile_cons, h, ih]
    · simp [List.dropWhile_cons, h]

lemma dropWhile_head_false (p : Char → Bool) (l t : List Char) (a : Char)
    (h : l.dropWhile p = a :: t) : p a = false := by
  have hl : 0 < (l.dropWhile p).length := by rw [h]; simp
  have hn := List.dropWhile_get_zero_not p l hl
  simpa [h] using hn

lemma mem_pyStrip (c : Char) (l : List Char) (h : c ∈ pyStrip l) : c ∈ l := by
  unfold pyStrip at h
  rw [List.mem_reverse] at h
  have h1 := List.Sublist.mem h (List.dropWhile_sublist _)
  rw [List.mem_reverse] at h1
  exact List.Sublist.mem h1 (List.dropWhile_sublist _)

lemma pyStrip_eq_nil_iff (l : List Char) :
    pyStrip l = [] ↔ ∀ c ∈ l, isPySpace c = true := by
  unfold pyStrip
  rw [List.reverse_eq_nil_iff, List.dropWhile_eq_nil_iff]
  constructor
  · intro h c hc
    rw [← List.takeWhile_append_dropWhile (p := isPySpace) (l := l)] at hc
    rcases List.mem_append.mp hc with h1 | h2
    · exact List.mem_takeWhile_imp h1
    · exact h c (List.mem_reverse.mpr h2)
  · intro h c hc
    exact h c (List.Sublist.mem (List.mem_reverse.mp hc) (List.dropWhile_sublist _))

lemma pyStrip_no_leading (l : List Char) :
    (pyStrip l).dropWhile isPySpace = pyStrip l := by
  cases hp : pyStrip l with
  | nil => rfl
  | cons a t =>
    -- `pyStrip l` is a non-empty prefix of `l.dropWhile isPySpace`, so its
    -- head is the head of the dropWhile, which does not satisfy the test.
    have hsplit := List.takeWhile_append_dropWhile
      (p := isPySpace) (l := (l.dropWhile isPySpace).reverse)
    have h5 := congrArg List.reverse hsplit
    rw [List.reverse_append, List.reverse_reverse] at h5
    have hcons : (((l.dropWhile isPySpace).reverse.dropWhile isPySpace).reverse :
        List Char) = a :: t := hp
    rw [hcons] at h5
    -- h5 : (a :: t) ++ (takeWhile …).reverse = l.dropWhile isPySpace
    have hhead : isPySpace a = false := dropWhile_head_false isPySpace l
      (t ++ (List.takeWhile isPySpace (l.dropWhile isPySpace).reverse).reverse) a
      h5.symm
    rw [List.dropWhile_cons, hhead]
    simp

lemma pyStrip_idem (l : List Char) : pyStrip (pyStrip l) = pyStrip l := by
  show ((((pyStrip l).dropWhile isPySpace).reverse.dropWhile isPySpace).reverse) =
    pyStrip l
  rw [pyStrip_no_leading l]
  show ((((l.dropWhile isPySpace).reverse.dropWhile
      isPySpace).reverse.reverse).dropWhile isPySpace).reverse = pyStrip l
  rw [List.reverse_reverse, dropWhile_dropWhile]
  rfl

lemma mem_removeSpaces (c : Char) (l : List Char) :
    c ∈ removeSpaces l ↔ c ∈ l ∧ c ≠ ' ' := by
  unfold removeSpaces
  rw [List.mem_filter]
  simp

lemma removeSpaces_no_space (c : Char) (l : List Char)
    (h : c ∈ removeSpaces l) : c ≠ ' ' :=
  ((mem_removeSpaces c l).mp h).2

lemma removeSpaces_eq_self (l : List Char) (h : ∀ c ∈ l, c ≠ ' ') :
    removeSpaces l = l := by
  unfold removeSpaces
  rw [List.filter_eq_self]
  intro a ha
  simpa using h a ha

/-! ### Inversion lemmas for `normalize_invoice_number` -/

lemma normalize_invoice_number_ok_iff (s r : List Char) :
    normalize_invoice_number s = .ok r ↔
      pyStrip (removeSpaces s) = r ∧ r ≠ [] := by
  unfold normalize_invoice_number
  by_cases he : (pyStrip (removeSpaces s)).isEmpty
  · rw [if_pos he]
    simp only [List.isEmpty_iff] at he
    constructor
    · intro h; cases h
    · rintro ⟨rfl, hne⟩; exact absurd he hne
  · rw [if_neg he]
    simp only [List.isEmpty_iff] at he
    constructor
    · intro h; cases h; exact ⟨rfl, he⟩
    · rintro ⟨rfl, _⟩; rfl

lemma normalize_invoice_number_error_iff (s : List Char) :
    normalize_invoice_number s = .error .emptyDocumentNumber ↔
      ∀ c ∈ s, isPySpace c = true := by
  unfold normalize_invoice_number
  by_cases he : (pyStrip (removeSpaces s)).isEmpty
  · rw [if_pos he]
    simp only [List.isEmpty_iff, pyStrip_eq_nil_iff] at he
    constructor
    · intro _ c hc
      by_cases hsp : c = ' '
      · rw [hsp]; decide
      · exact he c ((mem_removeSpaces c s).mpr ⟨hc, hsp⟩)
    · intro _; rfl
  · rw [if_neg he]
    simp only [List.isEmpty_iff, pyStrip_eq_nil_iff] at he
    constructor
    · intro h; cases h
    · intro hall
      exact absurd (fun c hc => hall c ((mem_removeSpaces c s).mp hc).1) he

/-! ### Lemmas about the document normalizer -/

lemma convertToRGB_width (img : Bitmap) :
    (convertToRGB img).width = img.width := by
  unfold convertToRGB
  split_ifs <;> rfl

lemma convertToRGB_height (img : Bitmap) :
    (convertToRGB img).height = img.height := by
  unfold convertToRGB
  split_ifs <;> rfl

lemma convert_pdf_ok (doc : PDFDocument) (password : Option (List Char))
    (imgs : List Bitmap) (h : convert_pdf_to_images doc password = .ok imgs) :
    imgs.length = doc.pages.length ∧ doc.pages.length ≠ 0 := by
  unfold convert_pdf_to_images pdfPagesOrError at h
  repeat' split at h
  all_goals (try (cases h))
  all_goals simp_all

lemma gate_ok (xs : List Bitmap) (h : xs ≠ []) :
    extract_data_input_gate xs = .ok () := by
  unfold extract_data_input_gate
  simp [List.isEmpty_iff, h]

/-! ### Lemmas about the data model and exporter -/

lemma mkInvoiceData_ok_currency (r : RawInvoiceData) (d : InvoiceData)
    (h : mkInvoiceData r = .ok d) :
    d.currency = r.currency.getD "PLN".data := by
  unfold mkInvoiceData at h
  repeat' split at h
  all_goals simp_all
  all_goals (cases h; rfl)

lemma export_row_select (inv : InvoiceData) (it : InvoiceItem) :
    (column_order.filter (fun c => srcColumns.contains c)).map
      (fun c => (itemRowSrc inv it).getD (srcColumns.indexOf c) Cell.blank) =
    claimedExportRow inv it := rfl

lemma export_rows_eq (inv : InvoiceData) (hne : inv.items ≠ []) :
    export_to_excel inv =
      .ok ((polishHeader.map (fun c => Cell.str c.data)) ::
        inv.items.map (claimedExportRow inv)) := by
  have hne2 : ¬(inv.items.isEmpty = true) := by
    simpa [List.isEmpty_iff] using hne
  unfold export_to_excel
  rw [if_neg hne2]
  refine congrArg Except.ok ?_
  show (((column_order.filter (fun c => (to_dataframe inv).columns.contains c)).map
      renameColumn).map (fun c => Cell.str c.data)) ::
    ((to_dataframe inv).rows.map (fun row =>
      (column_order.filter (fun c => (to_dataframe inv).columns.contains c)).map
        (fun c => row.getD ((to_dataframe inv).columns.indexOf c) Cell.blank))) = _
  have hcols : (to_dataframe inv).columns = srcColumns := rfl
  have hrows : (to_dataframe inv).rows = inv.items.map (itemRowSrc inv) := rfl
  rw [hcols, hrows]
  refine congrArg₂ List.cons rfl ?_
  rw [List.map_map]
  exact List.map_congr_left (fun it _ => export_row_select inv it)

/-! ## Claim theorems -/

/-- C1 (amended): for every encrypted PDF that does not open with the
empty password, processing with no supplied password and processing
with a wrong supplied password both fail with the single exception type
`PasswordProtectedPDFError` — catchable independently of
`UnsupportedFormatError` and `CorruptedFileError` — and the two
situations are told apart only by the exception message, which differs
between them, not by exception type. -/
theorem password_failures_same_class_distinct_messages (doc : PDFDocument)
    (henc : doc.encrypted = true) (hempty : doc.auth [] = false) :
    convert_pdf_to_images doc none =
      .error (.passwordProtectedPDFError
        "PDF is password-protected. Please provide password.") ∧
    (∀ pw, doc.auth pw = false →
      convert_pdf_to_images doc (some pw) =
        .error (.passwordProtectedPDFError "Invalid password. Please try again.")) ∧
    ("PDF is password-protected. Please provide password." ≠
      ("Invalid password. Please try again." : String)) ∧
    (∀ m1 m2 : String,
      classOf (.passwordProtectedPDFError m1) =
          classOf (.passwordProtectedPDFError m2) ∧
      classOf (.passwordProtectedPDFError m1) ≠
          classOf (.unsupportedFormatError m2) ∧
      classOf (.passwordProtectedPDFError m1) ≠
          classOf (.corruptedFileError m2)) := by
  refine ⟨?_, ?_, by decide, ?_⟩
  · simp [convert_pdf_to_images, henc, hempty]
  · intro pw hpw
    simp [convert_pdf_to_images, henc, hempty, hpw]
  · intro m1 m2
    exact ⟨rfl, by simp [classOf], by simp [classOf]⟩

/-- Witness for C1's amended theorem at a concrete encrypted one-page
PDF accepting only `s3cret`. -/
theorem password_failures_same_class_distinct_messages_witness :
    convert_pdf_to_images examplePDF none =
      .error (.passwordProtectedPDFError
        "PDF is password-protected. Please provide password.") ∧
    convert_pdf_to_images examplePDF (some "wrong".data) =
      .error (.passwordProtectedPDFError "Invalid password. Please try again.") :=
  ⟨(password_failures_same_class_distinct_messages examplePDF rfl (by decide)).1,
   (password_failures_same_class_distinct_messages examplePDF rfl
      (by decide)).2.1 "wrong".data (by decide)⟩

/-- C1 (counterexample): at a concrete encrypted PDF, the no-password
failure and the wrong-password failure are values of the same exception
class, so the two password failures are not two distinct, independently
catchable failure types. -/
theorem password_failures_single_class_cx :
    convert_pdf_to_images examplePDF none =
      .error (.passwordProtectedPDFError
        "PDF is password-protected. Please provide password.") ∧
    convert_pdf_to_images examplePDF (some "wrong".data) =
      .error (.passwordProtectedPDFError "Invalid password. Please try again.") ∧
    classOf (.passwordProtectedPDFError
        "PDF is password-protected. Please provide password.") =
      classOf (.passwordProtectedPDFError "Invalid password. Please try again.") :=
  ⟨by decide, by decide, rfl⟩

/-- C2 (counterexample): an interior tab survives document-number
normalization — the returned string contains a whitespace character, so
normalization does not remove all whitespace characters. -/
theorem normalize_invoice_number_keeps_tab_cx :
    normalize_invoice_number "A\tB".data = .ok "A\tB".data ∧
    '\t' ∈ "A\tB".data ∧ isPySpace '\t' = true := by
  refine ⟨by decide, by decide, by decide⟩

/-- C2 (amended): document-number normalization removes all ASCII space
characters (U+0020) and trims whitespace from both ends; it fails with
`EmptyDocumentNumber` exactly when every character of the input is
whitespace; a successful result is non-empty, contains no space
character, and consists of characters of the input (other interior
whitespace may remain). -/
theorem normalize_invoice_number_spaces_only (s : List Char) :
    (normalize_invoice_number s = .error .emptyDocumentNumber ↔
      ∀ c ∈ s, isPySpace c = true) ∧
    (∀ r, normalize_invoice_number s = .ok r →
      r ≠ [] ∧ ' ' ∉ r ∧ ∀ c ∈ r, c ∈ s) := by
  refine ⟨normalize_invoice_number_error_iff s, ?_⟩
  intro r h
  obtain ⟨hr, hne⟩ := (normalize_invoice_number_ok_iff s r).mp h
  subst hr
  refine ⟨hne, ?_, ?_⟩
  · intro hsp
    exact removeSpaces_no_space ' ' s (mem_pyStrip _ _ hsp) rfl
  · intro c hc
    exact ((mem_removeSpaces c s).mp (mem_pyStrip _ _ hc)).1

/-- Witness for C2's amended theorem: the all-whitespace input fails
with `EmptyDocumentNumber`. -/
theorem normalize_invoice_number_spaces_only_witness :
    normalize_invoice_number "   ".data = .error .emptyDocumentNumber :=
  (normalize_invoice_number_spaces_only "   ".data).1.mpr (by decide)

/-- C3 (counterexample): constructing an `InvoiceData` whose currency
string `XYZ` is outside the documented set succeeds, with the string
stored untouched — construction does not fail for currencies outside
the enumerated set. -/
theorem currency_not_validated_cx :
    mkInvoiceData exampleRawXYZ = .ok exampleDataXYZ ∧
    exampleDataXYZ.currency = "XYZ".data ∧
    "XYZ".data ∉ currencyCodes :=
  ⟨by decide, rfl, by decide⟩

/-- C3 (amended): the currency field of every successfully constructed
`InvoiceData` is exactly the supplied currency string, unvalidated;
omitting the currency yields the default `PLN`. -/
theorem currency_passthrough_default_pln (r : RawInvoiceData) (d : InvoiceData)
    (h : mkInvoiceData r = .ok d) :
    d.currency = r.currency.getD "PLN".data ∧
    (r.currency = none → d.currency = "PLN".data) := by
  have hc := mkInvoiceData_ok_currency r d h
  exact ⟨hc, fun hn => by rw [hc, hn]; rfl⟩

/-- Witness for C3's amended theorem: omitting the currency yields
`PLN`. -/
theorem currency_passthrough_default_pln_witness :
    exampleDataPLN.currency = "PLN".data :=
  (currency_passthrough_default_pln exampleRawNoCurrency exampleDataPLN
    (by decide)).2 rfl

/-- C4 (counterexample): a string of ten Arabic-Indic digits passes
tax-ID normalization unchanged — the result contains no ASCII digit at
all, and its ASCII-digit-only projection has 0 characters, yet
normalization succeeds rather than failing with `InvalidTaxId`. -/
theorem normalize_nip_accepts_unicode_digits_cx :
    normalize_nip "٠١٢٣٤٥٦٧٨٩".data = .ok "٠١٢٣٤٥٦٧٨٩".data ∧
    ("٠١٢٣٤٥٦٧٨٩".data.filter isAsciiDigit).length = 0 ∧
    "٠١٢٣٤٥٦٧٨٩".data.all isAsciiDigit = false :=
  ⟨by decide, by decide, by decide⟩

/-- C4 (amended): for every string whose digit-only projection — digits
in the sense of Python's Unicode-aware regex `\d`, not only ASCII — has
exactly 10 characters, tax-ID normalization returns exactly those digit
characters in order (a subsequence of the input, all of them digits,
but not necessarily ASCII); for any other digit count it fails with
`InvalidTaxId`, reporting the count found. -/
theorem normalize_nip_digit_projection (s : List Char) :
    (∀ r, normalize_nip s = .ok r →
      r = s.filter isPyDigit ∧ r.length = 10 ∧ List.Sublist r s ∧
        ∀ c ∈ r, isPyDigit c = true) ∧
    ((s.filter isPyDigit).length ≠ 10 ↔
      normalize_nip s = .error (.invalidTaxId (s.filter isPyDigit).length)) := by
  unfold normalize_nip
  by_cases h10 : (s.filter isPyDigit).length = 10
  · rw [if_pos h10]
    refine ⟨?_, ?_⟩
    · intro r h
      cases h
      exact ⟨rfl, h10, List.filter_sublist _, fun c hc => (List.mem_filter.mp hc).2⟩
    · constructor
      · intro hne; exact absurd h10 hne
      · intro h; simp at h
  · rw [if_neg h10]
    exact ⟨fun r h => by simp at h, ⟨fun _ => rfl, fun _ => h10⟩⟩

/-- Witness for C4's amended theorem: `PL 123-456-78-90` normalizes to
its ten digits in order. -/
theorem normalize_nip_digit_projection_witness :
    "1234567890".data = "PL 123-456-78-90".data.filter isPyDigit ∧
    "1234567890".data.length = 10 ∧
    List.Sublist "1234567890".data "PL 123-456-78-90".data ∧
    (∀ c ∈ "1234567890".data, isPyDigit c = true) :=
  (normalize_nip_digit_projection "PL 123-456-78-90".data).1
    "1234567890".data (by decide)

/-- C5 (counterexample): resizing a 3000x1000 bitmap with maximum 2000
produces height 666, the proportional value 2000·1000/3000 truncated,
not 667, its rounding to the nearest integer pixel. -/
theorem resize_truncates_not_rounds_cx :
    optimize_image ⟨3000, 1000, "RGB"⟩ 2000 = ⟨2000, 666, "RGB"⟩ ∧
    round ((2000 * 1000 : ℚ) / 3000) = 667 ∧
    (666 : ℤ) ≠ 667 :=
  ⟨by decide, by norm_num [round_eq], by decide⟩

/-- C5 (amended): when the larger dimension strictly exceeds the
maximum, per-bitmap normalization resizes so that the larger output
dimension equals the maximum and the other dimension is the
proportionally scaled value truncated to an integer pixel (floor, as
Python's `int()` does on the non-negative quotient), the width winning
the tie for square images; when the larger dimension does not exceed
the maximum, the dimensions are left unchanged. -/
theorem optimize_image_resize_behavior (img : Bitmap) (max_size : Nat) :
    (max img.width img.height ≤ max_size →
      (optimize_image img max_size).width = img.width ∧
      (optimize_image img max_size).height = img.height) ∧
    (max_size < max img.width img.height →
      max (optimize_image img max_size).width (optimize_image img max_size).height
          = max_size ∧
      (img.height < img.width →
        (optimize_image img max_size).width = max_size ∧
        (optimize_image img max_size).height = max_size * img.height / img.width) ∧
      (img.width ≤ img.height →
        (optimize_image img max_size).height = max_size ∧
        (optimize_image img max_size).width = max_size * img.width / img.height)) := by
  constructor
  · intro hle
    unfold optimize_image
    rw [if_neg (by rw [convertToRGB_width, convertToRGB_height]; omega)]
    exact ⟨convertToRGB_width img, convertToRGB_height img⟩
  · intro hgt
    unfold optimize_image
    rw [if_pos (by rw [convertToRGB_width, convertToRGB_height]; omega)]
    unfold resize_image
    rw [convertToRGB_width, convertToRGB_height]
    by_cases hwh : img.height < img.width
    · rw [if_pos hwh]
      have hw : 0 < img.width := by omega
      have hle2 : max_size * img.height / img.width ≤ max_size := by
        calc max_size * img.height / img.width
            ≤ max_size * img.width / img.width :=
              Nat.div_le_div_right (Nat.mul_le_mul_left _ (le_of_lt hwh))
          _ = max_size := Nat.mul_div_cancel _ hw
      exact ⟨Nat.max_eq_left hle2, fun _ => ⟨rfl, rfl⟩,
        fun hcon => absurd hcon (by omega)⟩
    · rw [if_neg hwh]
      have hwh2 : img.width ≤ img.height := by omega
      have hh : 0 < img.height := by
        have hmx : max img.width img.height = img.height := Nat.max_eq_right hwh2
        omega
      have hle2 : max_size * img.width / img.height ≤ max_size := by
        calc max_size * img.width / img.height
            ≤ max_size * img.height / img.height :=
              Nat.div_le_div_right (Nat.mul_le_mul_left _ hwh2)
          _ = max_size := Nat.mul_div_cancel _ hh
      exact ⟨Nat.max_eq_right hle2, fun hcon => absurd hcon (by omega),
        fun _ => ⟨rfl, rfl⟩⟩

/-- Witness for C5's amended theorem at a 3000x1000 bitmap and maximum
2000: output is 2000x666, and a small 100x50 bitmap is untouched. -/
theorem optimize_image_resize_behavior_witness :
    ((optimize_image ⟨3000, 1000, "RGB"⟩ 2000).width = 2000 ∧
      (optimize_image ⟨3000, 1000, "RGB"⟩ 2000).height = 2000 * 1000 / 3000) ∧
    ((optimize_image ⟨100, 50, "RGB"⟩ 2000).width = 100 ∧
      (optimize_image ⟨100, 50, "RGB"⟩ 2000).height = 50) :=
  ⟨((optimize_image_resize_behavior ⟨3000, 1000, "RGB"⟩ 2000).2
      (by decide)).2.1 (by decide),
   (optimize_image_resize_behavior ⟨100, 50, "RGB"⟩ 2000).1 (by decide)⟩

/-- C6: exporting a document with N line items yields exactly N+1 rows:
the Polish header row followed by one row per item, items in document
order, each row holding document number, issue date, seller name,
seller tax ID, buyer name, item description, quantity, unit price, tax
rate, line gross total, category, currency, document net total and
document gross total, in that fixed order; an empty item sequence fails
with the exporter's `EmptyDocument` error. -/
theorem export_rows_structure (inv : InvoiceData) :
    (inv.items = [] → export_to_excel inv = .error .emptyDocument) ∧
    (∀ rows, export_to_excel inv = .ok rows →
      rows.length = inv.items.length + 1 ∧
      rows.head? = some (polishHeader.map (fun c => Cell.str c.data)) ∧
      ∀ i : Nat, rows[i + 1]? = (inv.items[i]?).map (claimedExportRow inv)) := by
  constructor
  · intro he
    unfold export_to_excel
    rw [if_pos (by simp [he])]
  · intro rows h
    by_cases he : inv.items = []
    · unfold export_to_excel at h
      rw [if_pos (by simp [he])] at h
      simp at h
    · rw [export_rows_eq inv he] at h
      cases h
      refine ⟨by simp, rfl, fun i => ?_⟩
      rw [List.getElem?_cons_succ, List.getElem?_map]

/-- Witness for C6 at a concrete two-item invoice: 3 rows, the header
first, and row 1 is the first item in the claimed column order. -/
theorem export_rows_structure_witness :
    ((polishHeader.map (fun c => Cell.str c.data)) ::
        exampleInvoice.items.map (claimedExportRow exampleInvoice)).length =
      exampleInvoice.items.length + 1 ∧
    ((polishHeader.map (fun c => Cell.str c.data)) ::
        exampleInvoice.items.map (claimedExportRow exampleInvoice)).head? =
      some (polishHeader.map (fun c => Cell.str c.data)) :=
  ⟨((export_rows_structure exampleInvoice).2 _ (by decide)).1,
   ((export_rows_structure exampleInvoice).2 _ (by decide)).2.1⟩

/-- C7: for every constructible calendar date, the three supported
renderings `DD.MM.YYYY`, `DD/MM/YYYY` and ISO `YYYY-MM-DD` all parse to
the identical date value, and formatting any successfully parsed date
back to ISO and re-parsing yields the same date. -/
theorem date_formats_agree_and_roundtrip (d : PyDate)
    (h : isValidDate d = true) :
    parse_polish_date (.str (renderDot d)) = .ok (.date d) ∧
    parse_polish_date (.str (renderSlash d)) = .ok (.date d) ∧
    parse_polish_date (.str (renderISO d)) = .ok (.date d) ∧
    (∀ s x, parse_polish_date (.str s) = .ok (.date x) →
      parse_polish_date (.str (renderISO x)) = .ok (.date x)) :=
  ⟨parse_renderDot_ok d h, parse_renderSlash_ok d h, parse_renderISO_ok d h,
   fun s x hx => parse_renderISO_ok x (parse_str_valid s x hx)⟩

/-- Witness for C7 at 12 January 2025: all three renderings parse to
the same date. -/
theorem date_formats_agree_and_roundtrip_witness :
    renderDot ⟨2025, 1, 12⟩ = "12.01.2025".data ∧
    parse_polish_date (.str (renderDot ⟨2025, 1, 12⟩)) =
      .ok (.date ⟨2025, 1, 12⟩) ∧
    parse_polish_date (.str (renderSlash ⟨2025, 1, 12⟩)) =
      .ok (.date ⟨2025, 1, 12⟩) ∧
    parse_polish_date (.str (renderISO ⟨2025, 1, 12⟩)) =
      .ok (.date ⟨2025, 1, 12⟩) :=
  ⟨by decide,
   (date_formats_agree_and_roundtrip ⟨2025, 1, 12⟩ (by decide)).1,
   (date_formats_agree_and_roundtrip ⟨2025, 1, 12⟩ (by decide)).2.1,
   (date_formats_agree_and_roundtrip ⟨2025, 1, 12⟩ (by decide)).2.2.1⟩

/-- C8: whenever document normalization succeeds, the returned payload
list is non-empty — one payload for a JPEG or PNG, one per page for a
PDF (a zero-page PDF is rejected earlier as corrupted) — so the
inference gateway's empty-input rejection can never fire on normalizer
output. -/
theorem prepare_output_nonempty (f : FileBuffer) (max_size jpeg_quality : Nat)
    (password : Option (List Char)) (xs : List Bitmap)
    (h : prepare_image_for_api f max_size jpeg_quality password = .ok xs) :
    xs ≠ [] ∧ extract_data_input_gate xs = .ok () ∧
    (∀ img, f = .jpeg img → xs.length = 1) ∧
    (∀ img, f = .png img → xs.length = 1) ∧
    (∀ doc, f = .pdf doc → xs.length = doc.pages.length) := by
  cases f with
  | jpeg img =>
    simp only [prepare_image_for_api, detect_file_type] at h
    cases h
    refine ⟨by simp, rfl, fun _ _ => rfl, ?_, ?_⟩
    · intro i hcon; cases hcon
    · intro d hcon; cases hcon
  | png img =>
    simp only [prepare_image_for_api, detect_file_type] at h
    cases h
    refine ⟨by simp, rfl, ?_, fun _ _ => rfl, ?_⟩
    · intro i hcon; cases hcon
    · intro d hcon; cases hcon
  | pdf doc =>
    simp only [prepare_image_for_api, detect_file_type] at h
    split at h
    · simp at h
    · rename_i imgs hconv
      cases h
      obtain ⟨hlen, hnz⟩ := convert_pdf_ok doc password imgs hconv
      have hine : imgs ≠ [] := by
        intro hc
        rw [hc] at hlen
        exact hnz hlen.symm
      have hxne : imgs.map (fun i => optimize_image i max_size) ≠ [] := by
        intro hc
        exact hine (List.map_eq_nil_iff.mp hc)
      refine ⟨hxne, gate_ok _ hxne, ?_, ?_, ?_⟩
      · intro i hcon; cases hcon
      · intro i hcon; cases hcon
      · intro d hd
        cases hd
        rw [List.length_map]
        exact hlen
  | textFile => simp [prepare_image_for_api, detect_file_type] at h
  | unknownBlob => simp [prepare_image_for_api, detect_file_type] at h
  | otherImage fmt => simp [prepare_image_for_api, detect_file_type] at h
  | emptyFile => simp [prepare_image_for_api, detect_file_type] at h

/-- Witness for C8 at a concrete JPEG buffer: the single payload passes
the gateway's empty-input gate. -/
theorem prepare_output_nonempty_witness :
    ([(⟨100, 100, "RGB"⟩ : Bitmap)] ≠ []) ∧
    extract_data_input_gate [(⟨100, 100, "RGB"⟩ : Bitmap)] = .ok () :=
  ⟨(prepare_output_nonempty (.jpeg ⟨100, 100, "RGB"⟩) 2000 85 none
      [⟨100, 100, "RGB"⟩] (by rfl)).1,
   (prepare_output_nonempty (.jpeg ⟨100, 100, "RGB"⟩) 2000 85 none
      [⟨100, 100, "RGB"⟩] (by rfl)).2.1⟩

/-- C9: document-number normalization is idempotent — normalizing an
already-normalized document number succeeds and returns it unchanged. -/
theorem normalize_invoice_number_idempotent (s r : List Char)
    (h : normalize_invoice_number s = .ok r) :
    normalize_invoice_number r = .ok r := by
  obtain ⟨hr, hne⟩ := (normalize_invoice_number_ok_iff s r).mp h
  subst hr
  apply (normalize_invoice_number_ok_iff _ _).mpr
  refine ⟨?_, hne⟩
  rw [removeSpaces_eq_self _
    (fun c hc => removeSpaces_no_space c s (mem_pyStrip _ _ hc))]
  exact pyStrip_idem _

/-- Witness for C9: re-normalizing `FV001/2025` returns it unchanged. -/
theorem normalize_invoice_number_idempotent_witness :
    normalize_invoice_number "FV001/2025".data = .ok "FV001/2025".data :=
  normalize_invoice_number_idempotent "  FV 001 / 2025  ".data
    "FV001/2025".data (by decide)

/-- C10: date parsing passes a value that is already a `date` instance
through as the exact same value; in particular a `datetime` (subclass
of `date`) is returned unchanged, its time-of-day fields retained
rather than truncated. -/
theorem parse_polish_date_passthrough :
    (∀ v : PyDateObj, parse_polish_date (.obj v) = .ok v) ∧
    (∀ (d : PyDate) (hour minute second microsecond : Nat),
      parse_polish_date (.obj (.datetime d hour minute second microsecond)) =
        .ok (.datetime d hour minute second microsecond)) :=
  ⟨fun _ => rfl, fun _ _ _ _ _ => rfl⟩

end FvExtractor
